import Mathlib

/-
Verification of the signature-based offset resolution engine of cs2-dumper.

Shallow embedding of `src/analysis/offsets.rs` (pattern catalogs, per-module
offset resolver, derived-offset callbacks, module orchestrator) and of
`sanitize_identifier` from `src/output/patterns.rs`.

Modelling conventions:
- `BTreeMap String a` is modelled as an association list with unique keys and
  replace-on-insert semantics (`bmInsert` / `bmLookup`); the claims only
  concern lookups and key sets, not `BTreeMap`'s sorted iteration order.
- `Rva` (pelite's `u32` relative virtual address) is a `Nat`; the `u32`
  arithmetic performed by derived-offset callbacks is taken modulo `2 ^ 32`.
- The PE view handed to the resolver is abstracted by the scans it can
  answer: a `Scanner` maps a signature text to `none` (pattern not found)
  or to the populated save array of the first match. This is faithful
  because the compiled pattern is a pure function of the signature text.
- Fallible collaborator calls (`module_by_name`, `read_raw` + `data_part`,
  `PeView::from_bytes`) are `Except String` values supplied by an abstract
  `ProcessModel`.
-/

set_option maxHeartbeats 1000000

/-- Relative virtual address, `u32` in the source (`pelite::pe64::Rva`). -/
abbrev Rva := Nat

/-- Abstraction of a `PeView`: what `view.scanner().finds_code(pat, &mut save)`
answers for each signature text. `none` means the scan failed; `some save`
is the populated save array. -/
abbrev Scanner := String → Option (List Rva)

/-- Offset map of one module: `BTreeMap<String, Rva>` as a sorted assoc list. -/
abbrev OffsetBMap := List (String × Rva)

/-- Signature-text map of one module: `BTreeMap<String, String>`. -/
abbrev SigBMap := List (String × String)

/-- `BTreeMap::insert`: replaces the value of an existing key, otherwise adds
the binding. (The map is modelled as an association list with unique keys;
`BTreeMap`'s sorted iteration order is not needed by any claim, which all
concern lookups and key sets.) -/
def bmInsert {α : Type} (k : String) (v : α) : List (String × α) → List (String × α)
  | [] => [(k, v)]
  | (k2, v2) :: rest =>
    if k = k2 then (k, v) :: rest
    else (k2, v2) :: bmInsert k v rest

/-- `BTreeMap::get`: lookup by key. -/
def bmLookup {α : Type} (k : String) : List (String × α) → Option α
  | [] => none
  | (k2, v2) :: rest => if k = k2 then some v2 else bmLookup k rest

/-- A derived-offset callback:
`fn(&PeView, &mut BTreeMap<String, Rva>, Rva)`, returning the updated map. -/
abbrev OffsetCallback := Scanner → OffsetBMap → Rva → OffsetBMap

/-- One entry of a module's pattern catalog (`pattern_map!` entry):
name, signature text, optional derived-offset callback. -/
structure PatternDef where
  name : String
  patternStr : String
  callback : Option OffsetCallback

/-- Callback of `client` / `"dwCSGOInput"` (offsets.rs:79-85): runs a secondary
scan for `"f2410f108430u4"` and, on success, inserts
`dwViewAngles ↦ rva + save[1]` (u32 addition). A failed secondary scan is
swallowed. -/
def dwCSGOInput_cb : OffsetCallback := fun view map rva =>
  match view "f2410f108430u4" with
  | some save => bmInsert "dwViewAngles" ((rva + save.getD 1 0) % 4294967296) map
  | none => map

/-- Callback of `client` / `"dwPrediction"` (offsets.rs:94-96): inserts
`dwLocalPlayerPawn ↦ rva + 0x180` (u32 addition). -/
def dwPrediction_cb : OffsetCallback := fun _ map rva =>
  bmInsert "dwLocalPlayerPawn" ((rva + 0x180) % 4294967296) map

/-- Callback of `engine2` / `"dwNetworkGameClient_localPlayer"`
(offsets.rs:109-114): re-inserts under its own pattern name the scaled value
`(rva + rva * 2) * 8` (u32 arithmetic), emulating
`add rax, imm; lea rax, [rax + rax * 2]; mov ecx, [rcx + rax * 8]`. -/
def dwNetworkGameClient_localPlayer_cb : OffsetCallback := fun _ map rva =>
  bmInsert "dwNetworkGameClient_localPlayer" (((rva + rva * 2) * 8) % 4294967296) map

/-- Catalog entry `client` / `"dwEntityList"` (offsets.rs:86). -/
def dwEntityListDef : PatternDef :=
  ⟨"dwEntityList", "488935$\x7b\x27\x7d 4885f6", none⟩

/-- Catalog entry `client` / `"dwPrediction"` (offsets.rs:94). -/
def dwPredictionDef : PatternDef :=
  ⟨"dwPrediction", "488d05$\x7b\x27\x7d c3 cccccccccccccccc 4883ec? 8b0d", dwPrediction_cb⟩

/-- Catalog entry `engine2` / `"dwNetworkGameClient_localPlayer"` (offsets.rs:109). -/
def dwNetworkGameClient_localPlayerDef : PatternDef :=
  ⟨"dwNetworkGameClient_localPlayer", "4883c0u1 488d0440 8b0cc1",
    dwNetworkGameClient_localPlayer_cb⟩

/-- The `client` module's pattern catalog (offsets.rs:78-102). -/
def clientPatterns : List PatternDef :=
  [ ⟨"dwCSGOInput", "488905$\x7b\x27\x7d 0f57c0 0f1105", dwCSGOInput_cb⟩,
    dwEntityListDef,
    ⟨"dwGameEntitySystem", "488b1d$\x7b\x27\x7d 48891d", none⟩,
    ⟨"dwGameEntitySystem_highestEntityIndex",
      "8b81u2?? 8902 488bc2 c3 cccccccc 48895c24? 48896c24", none⟩,
    ⟨"dwGameRules", "48891d$\x7b\x27\x7d ff15$\x7b\x7d 84c0", none⟩,
    ⟨"dwGlobalVars", "488915$\x7b\x27\x7d 488942", none⟩,
    ⟨"dwGlowManager", "488b05$\x7b\x27\x7d c3 cccccccccccccccc 8b41", none⟩,
    ⟨"dwLocalPlayerController", "488905$\x7b\x27\x7d 8b9e", none⟩,
    ⟨"dwPlantedC4", "488b15$\x7b\x27\x7d 41ffc0", none⟩,
    dwPredictionDef,
    ⟨"dwSensitivity", "488d0d$\x7b[8]\x27\x7d 440f28c1 0f28f3 0f28fa e8", none⟩,
    ⟨"dwSensitivity_sensitivity",
      "ff50u1 4c8bc6 488d55? 488bcf e8$\x7b\x7d 84c0 0f85$\x7b\x7d 4c8d45? 8bd3 488bcf e8$\x7b\x7d e9$\x7b\x7d f30f1006",
      none⟩,
    ⟨"dwViewMatrix", "488d0d$\x7b\x27\x7d 48c1e006", none⟩,
    ⟨"dwViewRender", "488905$\x7b\x27\x7d 488bc8 4885c0", none⟩,
    ⟨"dwWeaponC4", "488b15$\x7b\x27\x7d 488b5c24? ffc0 8905[4] 488bc7", none⟩ ]

/-- The `engine2` module's pattern catalog (offsets.rs:103-120). -/
def engine2Patterns : List PatternDef :=
  [ ⟨"dwBuildNumber", "8905$\x7b\x27\x7d 488d0d$\x7b\x7d ff15$\x7b\x7d 488b0d", none⟩,
    ⟨"dwNetworkGameClient", "48893d$\x7b\x27\x7d 488d15", none⟩,
    ⟨"dwNetworkGameClient_clientTickCount",
      "8b81u4 c3 cccccccccccccccccc 8b81$\x7b\x7d c3 cccccccccccccccccc 83b9", none⟩,
    ⟨"dwNetworkGameClient_deltaTick", "89b3u4 8b45", none⟩,
    ⟨"dwNetworkGameClient_isBackgroundMap",
      "0fb681u4 c3 cccccccccccccccc 0fb681$\x7b\x7d c3 cccccccccccccccc 48895c24", none⟩,
    dwNetworkGameClient_localPlayerDef,
    ⟨"dwNetworkGameClient_maxClients", "8b81u4 c3cccccccccccccccccc 8b81$\x7b\x7d ffc0", none⟩,
    ⟨"dwNetworkGameClient_serverTickCount", "8b81u4 c3 cccccccccccccccccc 83b9", none⟩,
    ⟨"dwNetworkGameClient_signOnState", "448b81u4 488d0d", none⟩,
    ⟨"dwWindowHeight", "8b05$\x7b\x27\x7d 8903", none⟩,
    ⟨"dwWindowWidth", "8b05$\x7b\x27\x7d 8907", none⟩ ]

/-- The `input_system` module's pattern catalog (offsets.rs:121-123). -/
def inputSystemPatterns : List PatternDef :=
  [ ⟨"dwInputSystem", "488905$\x7b\x27\x7d 488d05", none⟩ ]

/-- The `matchmaking` module's pattern catalog (offsets.rs:124-127). -/
def matchmakingPatterns : List PatternDef :=
  [ ⟨"dwGameTypes", "488d0d$\x7b\x27\x7d 33d2", none⟩,
    ⟨"dwGameTypes_mapName", "488b81u4 4885c074? 4883c0", none⟩ ]

/-- The `soundsystem` module's pattern catalog (offsets.rs:128-131). -/
def soundsystemPatterns : List PatternDef :=
  [ ⟨"dwSoundSystem", "488d05$\x7b\x27\x7d c3 cccccccccccccccc 488915", none⟩,
    ⟨"dwSoundSystem_engineViewData", "0f1147u1 0f104b", none⟩ ]

/-- Applies the optional derived-offset callback (offsets.rs:55-57). -/
def applyCallback (cb : Option OffsetCallback) (scan : Scanner) (m : OffsetBMap) (rva : Rva) :
    OffsetBMap :=
  match cb with
  | some f => f scan m rva
  | none => m

/-- One iteration of the resolver's pattern loop (offsets.rs:40-58): record the
signature text, scan; on failure log and continue; on success insert
`save[1]` under the pattern's name, then run the callback. -/
def resolveStep (scan : Scanner) (st : OffsetBMap × SigBMap) (p : PatternDef) :
    OffsetBMap × SigBMap :=
  let sigs := bmInsert p.name p.patternStr st.2
  match scan p.patternStr with
  | none => (st.1, sigs)
  | some save =>
    let rva := save.getD 1 0
    (applyCallback p.callback scan (bmInsert p.name rva st.1) rva, sigs)

/-- The resolver's pattern loop over a whole catalog. -/
def resolvePatterns (scan : Scanner) (ps : List PatternDef) (st : OffsetBMap × SigBMap) :
    OffsetBMap × SigBMap :=
  match ps with
  | [] => st
  | p :: rest => resolvePatterns scan rest (resolveStep scan st p)

/-- `client::offsets` (generated by `pattern_map!`, offsets.rs:36-71). -/
def client_offsets (scan : Scanner) : OffsetBMap × SigBMap :=
  resolvePatterns scan clientPatterns ([], [])

/-- `engine2::offsets`. -/
def engine2_offsets (scan : Scanner) : OffsetBMap × SigBMap :=
  resolvePatterns scan engine2Patterns ([], [])

/-- `input_system::offsets`. -/
def input_system_offsets (scan : Scanner) : OffsetBMap × SigBMap :=
  resolvePatterns scan inputSystemPatterns ([], [])

/-- `matchmaking::offsets`. -/
def matchmaking_offsets (scan : Scanner) : OffsetBMap × SigBMap :=
  resolvePatterns scan matchmakingPatterns ([], [])

/-- `soundsystem::offsets`. -/
def soundsystem_offsets (scan : Scanner) : OffsetBMap × SigBMap :=
  resolvePatterns scan soundsystemPatterns ([], [])

/-- `ModuleInfo` returned by `process.module_by_name` (base and size). -/
structure ModInfo where
  base : Nat
  size : Nat

/-- Abstract process memory collaborator plus the PE decoder:
`module_by_name`, `read_raw(..).data_part()`, `PeView::from_bytes`. Each may
fail; `from_bytes` yields the view, abstracted by its `Scanner`. -/
structure ProcessModel where
  module_by_name : String → Except String ModInfo
  read_raw : Nat → Nat → Except String (List Nat)
  from_bytes : List Nat → Except String Scanner

/-- The three fallible steps the orchestrator performs per module
(offsets.rs:149-155), chained with early return like the `?` operator. -/
def acquireView (p : ProcessModel) (name : String) : Except String Scanner :=
  match p.module_by_name name with
  | .error e => .error e
  | .ok info =>
    match p.read_raw info.base info.size with
    | .error e => .error e
    | .ok buf => p.from_bytes buf

/-- The orchestrator's module loop (offsets.rs:148-160): per module acquire the
view (any failure aborts the whole pass), resolve, and insert both per-module
maps into the aggregates. -/
def runModules (p : ProcessModel)
    (mods : List (String × (Scanner → OffsetBMap × SigBMap)))
    (acc : List (String × OffsetBMap) × List (String × SigBMap)) :
    Except String (List (String × OffsetBMap) × List (String × SigBMap)) :=
  match mods with
  | [] => .ok acc
  | (name, fn) :: rest =>
    match acquireView p name with
    | .error e => .error e
    | .ok view =>
      let r := fn view
      runModules p rest (bmInsert name r.1 acc.1, bmInsert name r.2 acc.2)

/-- The fixed five-module list (offsets.rs:140-146). -/
def fixedModules : List (String × (Scanner → OffsetBMap × SigBMap)) :=
  [ ("client.dll", client_offsets),
    ("engine2.dll", engine2_offsets),
    ("inputsystem.dll", input_system_offsets),
    ("matchmaking.dll", matchmaking_offsets),
    ("soundsystem.dll", soundsystem_offsets) ]

/-- The top-level `offsets` function (offsets.rs:136-163). -/
def offsets (p : ProcessModel) :
    Except String (List (String × OffsetBMap) × List (String × SigBMap)) :=
  runModules p fixedModules ([], [])

/-- Token of a compiled signature, per the spec's grammar: literal byte,
single-byte wildcard, fixed-length skip, capture marker, and the variant
capture that consumes an n-byte field interpreted as a relative displacement;
brace tokens delimit a follow-displacement group. -/
inductive PatAtom where
  | lit : Nat → PatAtom
  | wild : PatAtom
  | skip : Nat → PatAtom
  | saveCursor : PatAtom
  | readU : Nat → PatAtom
  | derefOpen : PatAtom
  | derefClose : PatAtom
deriving DecidableEq

/-- Value of a hexadecimal digit character, `none` otherwise. -/
def hexDigit (c : Char) : Option Nat :=
  if '0' ≤ c ∧ c ≤ '9' then some (c.toNat - 48)
  else if 'a' ≤ c ∧ c ≤ 'f' then some (c.toNat - 87)
  else if 'A' ≤ c ∧ c ≤ 'F' then some (c.toNat - 55)
  else none

/-- Modelled from the spec: the signature-text compiler (`pelite::pattern!`,
which lives in the external `pelite` crate and is not under `src/`).
Per spec section 4.1 it parses the signature text deterministically into
a token sequence, and a malformed text is a construction-time error
(here `none`). Concrete syntax follows the catalog's signature strings:
hex byte pairs, `?` wildcard, `[N]` skip, `\x27` capture marker, `uN`
n-byte field capture, `$\x7b ... \x7d` follow-displacement group. -/
def compileAux : List Char → Option (List PatAtom)
  | [] => some []
  | '\x20' :: rest => compileAux rest
  | '?' :: rest => (compileAux rest).map (fun ts => PatAtom.wild :: ts)
  | '\x27' :: rest => (compileAux rest).map (fun ts => PatAtom.saveCursor :: ts)
  | '\x24' :: '\x7b' :: rest => (compileAux rest).map (fun ts => PatAtom.derefOpen :: ts)
  | '\x7d' :: rest => (compileAux rest).map (fun ts => PatAtom.derefClose :: ts)
  | 'u' :: c :: rest =>
    match hexDigit c with
    | some n => if n ≤ 9 then (compileAux rest).map (fun ts => PatAtom.readU n :: ts) else none
    | none => none
  | '\x5b' :: c1 :: '\x5d' :: rest =>
    match hexDigit c1 with
    | some n => if n ≤ 9 then (compileAux rest).map (fun ts => PatAtom.skip n :: ts) else none
    | none => none
  | '\x5b' :: c1 :: c2 :: '\x5d' :: rest =>
    match hexDigit c1, hexDigit c2 with
    | some n1, some n2 =>
      if n1 ≤ 9 ∧ n2 ≤ 9 then
        (compileAux rest).map (fun ts => PatAtom.skip (10 * n1 + n2) :: ts)
      else none
    | _, _ => none
  | c1 :: c2 :: rest =>
    match hexDigit c1, hexDigit c2 with
    | some h1, some h2 => (compileAux rest).map (fun ts => PatAtom.lit (16 * h1 + h2) :: ts)
    | _, _ => none
  | _ => none

/-- Modelled from the spec: compiling a signature text into a token sequence.
A pure function of the text alone. -/
def compilePattern (s : String) : Option (List PatAtom) :=
  compileAux s.data

/-- Collapses each run of consecutive underscores to a single underscore
(models `Regex::new("_+").replace_all(.., "_")`, patterns.rs:27-28). -/
def collapseUnderscores : List Char → List Char
  | [] => []
  | [c] => [c]
  | c1 :: c2 :: rest =>
    if c1 = '_' ∧ c2 = '_' then collapseUnderscores (c2 :: rest)
    else c1 :: collapseUnderscores (c2 :: rest)

/-- Step of `sanitize_identifier` at patterns.rs:22-24: prepend an underscore
when the first character is a decimal digit (`is_digit(10)`). -/
def sanitizeStep3 (l : List Char) : List Char :=
  if (l.head?.map Char.isDigit).getD false then '_' :: l else l

/-- Step of `sanitize_identifier` at patterns.rs:33-41: drop one trailing
underscore when the string is longer than one character and the original
name did not itself end with a non-alphanumeric character. -/
def sanitizeStep5 (origEndsSpecial : Bool) (l : List Char) : List Char :=
  if l.getLast? = some '_' ∧ 1 < l.length then
    if !origEndsSpecial then l.dropLast else l
  else l

/-- Final stages of `sanitize_identifier` (patterns.rs:22-48): digit guard,
underscore collapse, trailing-underscore trim, empty fallback. -/
def sanitizeFinish (origEndsSpecial : Bool) (l : List Char) : String :=
  let s4 := collapseUnderscores (sanitizeStep3 l)
  let s5 := sanitizeStep5 origEndsSpecial s4
  if s5.isEmpty then "_empty_" else String.mk s5

/-- `sanitize_identifier` (patterns.rs:12-49). The two external library
functions it calls are passed in: `isAlnum` models Rust's Unicode
`char::is_alphanumeric` and `shouty` models heck's `to_shouty_snake_case`.
Rust's byte-length test `sanitized.len() > 1` coincides with the character
count test here because a string that ends in the one-byte `'_'` has more
than one byte exactly when it has more than one character. -/
def sanitize_identifier (isAlnum : Char → Bool) (shouty : String → String)
    (name : String) (for_rust_constant : Bool) : String :=
  let s1 : List Char := name.data.map (fun c => if !(isAlnum c) && !(c = '_') then '_' else c)
  let s2 : List Char := if for_rust_constant then (shouty (String.mk s1)).data else s1
  sanitizeFinish ((name.data.getLast?.map (fun c => !(isAlnum c))).getD false) s2

/-- ASCII instance of the alphanumeric classifier, for concrete evaluation. -/
def asciiAlnum (c : Char) : Bool := c.isAlphanum

/-- Trivial instance of the case converter, for concrete evaluation. -/
def idShouty (s : String) : String := s

/-- A scanner on which every scan fails. -/
def scanNone : Scanner := fun _ => none

/-- A scanner on which exactly the `dwPrediction` signature matches, with
save array `[0, 5]`. -/
def scanPred : Scanner := fun s =>
  if s = dwPredictionDef.patternStr then some [0, 5] else none

/-- A scanner on which exactly the `dwEntityList` signature matches, with
save array `[0, 42]`. -/
def scanEnt : Scanner := fun s =>
  if s = dwEntityListDef.patternStr then some [0, 42] else none

/-- A process model where `inputsystem.dll` is missing and every other
module resolves, reads and parses fine (to a view where no scan matches). -/
def pFatal : ProcessModel :=
  ⟨fun n => if n = "inputsystem.dll" then .error "ModuleNotFound" else .ok ⟨0, 0⟩,
    fun _ _ => .ok [],
    fun _ => .ok scanNone⟩

/-- A scanner whose every scan reports save array `[0, 7]`. -/
def scanSeven : Scanner := fun _ => some [0, 7]

/-- A scanner whose every scan reports save array `[0, 9]`. -/
def scanNine : Scanner := fun _ => some [0, 9]

/-- A process model with two healthy modules `modA` and `modB` whose views
answer scans via `scanSeven` and `scanNine` respectively. -/
def pTwoMods : ProcessModel :=
  ⟨fun n => .ok ⟨(if n = "modA" then 0 else 1), 0⟩,
    fun b _ => .ok [b],
    fun buf => .ok (if buf = [0] then scanSeven else scanNine)⟩

/-- A one-pattern catalog declaring `dwFoo`, as module A would. -/
def fooCatalogA : List PatternDef := [⟨"dwFoo", "aa", none⟩]

/-- A one-pattern catalog declaring `dwFoo`, as module B would. -/
def fooCatalogB : List PatternDef := [⟨"dwFoo", "bb", none⟩]

/-- Module-A resolver over `fooCatalogA`. -/
def fooResolverA (scan : Scanner) : OffsetBMap × SigBMap :=
  resolvePatterns scan fooCatalogA ([], [])

/-- Module-B resolver over `fooCatalogB`. -/
def fooResolverB (scan : Scanner) : OffsetBMap × SigBMap :=
  resolvePatterns scan fooCatalogB ([], [])

/-- A minimal one-pattern catalog with no callback, for concrete instantiation. -/
def toyCatalog : List PatternDef := [⟨"a", "pa", none⟩]

theorem bmLookup_bmInsert_self {α : Type} (k : String) (v : α) (m : List (String × α)) :
    bmLookup k (bmInsert k v m) = some v := by
  induction m with
  | nil => simp [bmInsert, bmLookup]
  | cons hd tl ih =>
    obtain ⟨k2, v2⟩ := hd
    by_cases h2 : k = k2
    · simp [bmInsert, h2, bmLookup]
    · simp [bmInsert, h2, bmLookup, ih]

theorem bmLookup_bmInsert_ne {α : Type} {k j : String} (v : α) (m : List (String × α))
    (h : k ≠ j) : bmLookup k (bmInsert j v m) = bmLookup k m := by
  induction m with
  | nil => simp [bmInsert, bmLookup, h]
  | cons hd tl ih =>
    obtain ⟨k2, v2⟩ := hd
    by_cases h2 : j = k2
    · subst h2; simp [bmInsert, bmLookup, h]
    · by_cases h3 : k = k2
      · simp [bmInsert, h2, bmLookup, h3]
      · simp [bmInsert, h2, bmLookup, h3, ih]

theorem resolveStep_fail (scan : Scanner) (st : OffsetBMap × SigBMap) (p : PatternDef)
    (h : scan p.patternStr = none) :
    resolveStep scan st p = (st.1, bmInsert p.name p.patternStr st.2) := by
  simp [resolveStep, h]

theorem resolveStep_found (scan : Scanner) (st : OffsetBMap × SigBMap) (p : PatternDef)
    (save : List Rva) (h : scan p.patternStr = some save) :
    resolveStep scan st p =
      (applyCallback p.callback scan (bmInsert p.name (save.getD 1 0) st.1) (save.getD 1 0),
        bmInsert p.name p.patternStr st.2) := by
  simp [resolveStep, h]

theorem resolveStep_sigs (scan : Scanner) (st : OffsetBMap × SigBMap) (p : PatternDef) :
    (resolveStep scan st p).2 = bmInsert p.name p.patternStr st.2 := by
  unfold resolveStep
  cases scan p.patternStr <;> rfl

theorem listGetD_of_get? (l : List Rva) (r : Rva) (h : l.get? 1 = some r) :
    l.getD 1 0 = r := by
  rw [List.getD_eq_getElem?_getD, ← List.get?_eq_getElem?, h]
  rfl

/-- Claim C2: when the scan for a pattern fails, the resolver records the
pattern's signature text in the signature-text map, adds nothing to the
offset map, leaves the offset map exactly as it was, and continues with the
remaining patterns of the catalog. -/
theorem claim_c2 (scan : Scanner) (p : PatternDef) (rest : List PatternDef)
    (offs : OffsetBMap) (sigs : SigBMap)
    (h : scan p.patternStr = none) :
    resolveStep scan (offs, sigs) p = (offs, bmInsert p.name p.patternStr sigs) ∧
    resolvePatterns scan (p :: rest) (offs, sigs) =
      resolvePatterns scan rest (offs, bmInsert p.name p.patternStr sigs) := by
  refine ⟨resolveStep_fail scan (offs, sigs) p h, ?_⟩
  simp only [resolvePatterns]
  rw [resolveStep_fail scan (offs, sigs) p h]

theorem claim_c2_witness :
    scanNone dwEntityListDef.patternStr = none ∧
    resolveStep scanNone ([], []) dwEntityListDef =
      ([], bmInsert dwEntityListDef.name dwEntityListDef.patternStr []) :=
  ⟨rfl, (claim_c2 scanNone dwEntityListDef [] [] [] rfl).1⟩

/-- Claim C3: when a pattern's scan succeeds, the value in capture slot 1 of
the save array is inserted into the module's offset map under the pattern's
name as its base relative offset, and the map carrying that insertion is
what the optional callback then operates on. -/
theorem claim_c3 (scan : Scanner) (p : PatternDef) (offs : OffsetBMap) (sigs : SigBMap)
    (save : List Rva) (r : Rva)
    (h1 : scan p.patternStr = some save) (h2 : save.get? 1 = some r) :
    (resolveStep scan (offs, sigs) p).1 =
      applyCallback p.callback scan (bmInsert p.name r offs) r ∧
    bmLookup p.name (bmInsert p.name r offs) = some r := by
  have hr : save.getD 1 0 = r := listGetD_of_get? save r h2
  constructor
  · rw [resolveStep_found scan (offs, sigs) p save h1, hr]
  · exact bmLookup_bmInsert_self _ _ _

theorem claim_c3_witness :
    scanEnt dwEntityListDef.patternStr = some [0, 42] ∧
    ([0, 42] : List Rva).get? 1 = some 42 ∧
    (resolveStep scanEnt ([], []) dwEntityListDef).1 =
      applyCallback dwEntityListDef.callback scanEnt (bmInsert dwEntityListDef.name 42 []) 42 ∧
    bmLookup dwEntityListDef.name (bmInsert dwEntityListDef.name 42 ([] : OffsetBMap)) =
      some 42 := by
  have h := claim_c3 scanEnt dwEntityListDef [] [] [0, 42] 42 (by simp [scanEnt]) rfl
  exact ⟨by simp [scanEnt], rfl, h.1, h.2⟩

/-- Claim C5 counterexample: the `dwNetworkGameClient_localPlayer` callback
overwrites the base offset entry just inserted under its own pattern's name;
with base offset 1 the entry maps to 24 afterwards, not to its previous
value 1. -/
theorem claim_c5_counterexample :
    bmLookup "dwNetworkGameClient_localPlayer"
        (bmInsert "dwNetworkGameClient_localPlayer" 1 ([] : OffsetBMap)) = some 1 ∧
    bmLookup "dwNetworkGameClient_localPlayer"
        (dwNetworkGameClient_localPlayer_cb scanNone
          (bmInsert "dwNetworkGameClient_localPlayer" 1 ([] : OffsetBMap)) 1) = some 24 ∧
    bmLookup "dwNetworkGameClient_localPlayer"
        (dwNetworkGameClient_localPlayer_cb scanNone
          (bmInsert "dwNetworkGameClient_localPlayer" 1 ([] : OffsetBMap)) 1) ≠ some 1 := by
  refine ⟨rfl, rfl, ?_⟩
  decide

/-- Claim C5 (amended): each derived-offset callback touches only its one
target name, so every entry under any other name — in particular entries
produced by earlier patterns — keeps its previous value; the
`dwNetworkGameClient_localPlayer` callback's target name is its own
pattern's name, whose just-inserted base entry it overwrites with the
scaled value. -/
theorem claim_c5_amended :
    (∀ s m v k, k ≠ "dwViewAngles" →
      bmLookup k (dwCSGOInput_cb s m v) = bmLookup k m) ∧
    (∀ s m v k, k ≠ "dwLocalPlayerPawn" →
      bmLookup k (dwPrediction_cb s m v) = bmLookup k m) ∧
    (∀ s m v k, k ≠ "dwNetworkGameClient_localPlayer" →
      bmLookup k (dwNetworkGameClient_localPlayer_cb s m v) = bmLookup k m) ∧
    (∀ s m v, bmLookup "dwNetworkGameClient_localPlayer"
      (dwNetworkGameClient_localPlayer_cb s m v) = some (((v + v * 2) * 8) % 4294967296)) := by
  refine ⟨?_, ?_, ?_, ?_⟩
  · intro s m v k hk
    unfold dwCSGOInput_cb
    cases s "f2410f108430u4" with
    | none => rfl
    | some save => exact bmLookup_bmInsert_ne _ _ hk
  · intro s m v k hk
    exact bmLookup_bmInsert_ne _ _ hk
  · intro s m v k hk
    exact bmLookup_bmInsert_ne _ _ hk
  · intro s m v
    exact bmLookup_bmInsert_self _ _ _

theorem claim_c5_witness :
    bmLookup "x" (dwCSGOInput_cb scanNone [] 0) = bmLookup "x" ([] : OffsetBMap) ∧
    bmLookup "x" (dwPrediction_cb scanNone [] 0) = bmLookup "x" ([] : OffsetBMap) ∧
    bmLookup "x" (dwNetworkGameClient_localPlayer_cb scanNone [] 0) =
      bmLookup "x" ([] : OffsetBMap) :=
  ⟨claim_c5_amended.1 scanNone [] 0 "x" (by decide),
    claim_c5_amended.2.1 scanNone [] 0 "x" (by decide),
    claim_c5_amended.2.2.1 scanNone [] 0 "x" (by decide)⟩

/-- Claim C6: the index-scaling callback stores `(base + base * 2) * 8`
(as a `u32`) under `dwNetworkGameClient_localPlayer`; for base `0x0A` the
stored value is exactly `0xF0` = 240. -/
theorem claim_c6 :
    (∀ s m v, (v + v * 2) * 8 < 4294967296 →
      bmLookup "dwNetworkGameClient_localPlayer"
        (dwNetworkGameClient_localPlayer_cb s m v) = some ((v + v * 2) * 8)) ∧
    (∀ s m, bmLookup "dwNetworkGameClient_localPlayer"
        (dwNetworkGameClient_localPlayer_cb s m 0x0A) = some 0xF0) := by
  constructor
  · intro s m v hv
    unfold dwNetworkGameClient_localPlayer_cb
    rw [Nat.mod_eq_of_lt hv]
    exact bmLookup_bmInsert_self _ _ _
  · intro s m
    exact bmLookup_bmInsert_self _ _ _

theorem claim_c6_witness :
    (10 + 10 * 2) * 8 < 4294967296 ∧
    bmLookup "dwNetworkGameClient_localPlayer"
      (dwNetworkGameClient_localPlayer_cb scanNone [] 10) = some ((10 + 10 * 2) * 8) :=
  ⟨by decide, claim_c6.1 scanNone [] 10 (by decide)⟩

/-- Claim C7: when the `dwPrediction` pattern's primary match produces base
relative offset `B` (capture slot 1), its callback inserts an entry named
`dwLocalPlayerPawn` whose value is `B + 0x180`. -/
theorem claim_c7 (scan : Scanner) (offs : OffsetBMap) (sigs : SigBMap)
    (save : List Rva) (B : Rva)
    (h1 : scan dwPredictionDef.patternStr = some save)
    (h2 : save.get? 1 = some B) (h3 : B + 0x180 < 4294967296) :
    bmLookup "dwLocalPlayerPawn" ((resolveStep scan (offs, sigs) dwPredictionDef).1) =
      some (B + 0x180) := by
  have hr : save.getD 1 0 = B := listGetD_of_get? save B h2
  rw [resolveStep_found scan (offs, sigs) dwPredictionDef save h1, hr]
  show bmLookup "dwLocalPlayerPawn"
      (bmInsert "dwLocalPlayerPawn" ((B + 0x180) % 4294967296)
        (bmInsert "dwPrediction" B offs)) = some (B + 0x180)
  rw [bmLookup_bmInsert_self, Nat.mod_eq_of_lt h3]

theorem claim_c7_witness :
    scanPred dwPredictionDef.patternStr = some [0, 5] ∧
    ([0, 5] : List Rva).get? 1 = some 5 ∧
    5 + 0x180 < 4294967296 ∧
    bmLookup "dwLocalPlayerPawn" ((resolveStep scanPred ([], []) dwPredictionDef).1) =
      some (5 + 0x180) :=
  ⟨by simp [scanPred], rfl, by decide,
    claim_c7 scanPred [] [] [0, 5] 5 (by simp [scanPred]) rfl (by decide)⟩

theorem resolveStep_offs_preserved (scan : Scanner) (st : OffsetBMap × SigBMap)
    (p : PatternDef) (k : String) (hk : k ≠ p.name)
    (hcb : ∀ cb, p.callback = some cb → ∀ s m v, bmLookup k (cb s m v) = bmLookup k m) :
    bmLookup k (resolveStep scan st p).1 = bmLookup k st.1 := by
  cases hscan : scan p.patternStr with
  | none => rw [resolveStep_fail scan st p hscan]
  | some save =>
    rw [resolveStep_found scan st p save hscan]
    cases hc : p.callback with
    | none => exact bmLookup_bmInsert_ne _ _ hk
    | some cb =>
      show bmLookup k (cb scan (bmInsert p.name (save.getD 1 0) st.1) (save.getD 1 0)) =
        bmLookup k st.1
      rw [hcb cb hc]
      exact bmLookup_bmInsert_ne _ _ hk

theorem resolvePatterns_sigs_preserved (scan : Scanner) :
    ∀ (ps : List PatternDef) (st : OffsetBMap × SigBMap) (k : String),
    (∀ q ∈ ps, q.name ≠ k) →
    bmLookup k (resolvePatterns scan ps st).2 = bmLookup k st.2 := by
  intro ps
  induction ps with
  | nil => intro st k _; rfl
  | cons q rest ih =>
    intro st k hk
    have hq : q.name ≠ k := hk q (List.mem_cons_self q rest)
    simp only [resolvePatterns]
    rw [ih _ k (fun r hr => hk r (List.mem_cons_of_mem q hr))]
    rw [resolveStep_sigs]
    exact bmLookup_bmInsert_ne _ _ (Ne.symm hq)

theorem resolvePatterns_offs_preserved (scan : Scanner) :
    ∀ (ps : List PatternDef) (st : OffsetBMap × SigBMap) (k : String),
    (∀ q ∈ ps, q.name ≠ k) →
    (∀ q ∈ ps, ∀ cb, q.callback = some cb →
      ∀ s m v, bmLookup k (cb s m v) = bmLookup k m) →
    bmLookup k (resolvePatterns scan ps st).1 = bmLookup k st.1 := by
  intro ps
  induction ps with
  | nil => intro st k _ _; rfl
  | cons q rest ih =>
    intro st k hk hcb
    simp only [resolvePatterns]
    rw [ih _ k (fun r hr => hk r (List.mem_cons_of_mem q hr))
      (fun r hr => hcb r (List.mem_cons_of_mem q hr))]
    exact resolveStep_offs_preserved scan st q k
      (Ne.symm (hk q (List.mem_cons_self q rest)))
      (hcb q (List.mem_cons_self q rest))

theorem resolvePatterns_key_facts (scan : Scanner) :
    ∀ (ps : List PatternDef) (st : OffsetBMap × SigBMap) (p : PatternDef),
    p ∈ ps → (ps.map PatternDef.name).Nodup →
    (∀ q ∈ ps, ∀ cb, q.callback = some cb → q.name ≠ p.name →
      ∀ s m v, bmLookup p.name (cb s m v) = bmLookup p.name m) →
    bmLookup p.name (resolvePatterns scan ps st).2 = some p.patternStr ∧
    (scan p.patternStr = none → bmLookup p.name st.1 = none →
      bmLookup p.name (resolvePatterns scan ps st).1 = none) := by
  intro ps
  induction ps with
  | nil => intro st p hp; exact absurd hp (List.not_mem_nil p)
  | cons q rest ih =>
    intro st p hp hnd hcb
    simp only [List.map_cons, List.nodup_cons] at hnd
    obtain ⟨hqn, hnd2⟩ := hnd
    have hrestne : p ∈ rest → q.name ≠ p.name := by
      intro hmem heq
      exact hqn (heq ▸ List.mem_map_of_mem PatternDef.name hmem)
    rcases List.mem_cons.mp hp with heq | hmem
    · subst heq
      have hne : ∀ r ∈ rest, r.name ≠ p.name := by
        intro r hr heq2
        exact hqn (heq2 ▸ List.mem_map_of_mem PatternDef.name hr)
      constructor
      · simp only [resolvePatterns]
        rw [resolvePatterns_sigs_preserved scan rest _ p.name hne]
        rw [resolveStep_sigs]
        exact bmLookup_bmInsert_self _ _ _
      · intro hscan hst
        simp only [resolvePatterns]
        rw [resolvePatterns_offs_preserved scan rest _ p.name hne
          (fun r hr cb hc => hcb r (List.mem_cons_of_mem p hr) cb hc (hne r hr))]
        rw [resolveStep_fail scan st p hscan]
        exact hst
    · have hqp : q.name ≠ p.name := hrestne hmem
      have hstep := ih (resolveStep scan st q) p hmem hnd2
        (fun r hr cb hc hne2 => hcb r (List.mem_cons_of_mem q hr) cb hc hne2)
      constructor
      · simp only [resolvePatterns]
        exact hstep.1
      · intro hscan hst
        simp only [resolvePatterns]
        refine hstep.2 hscan ?_
        rw [resolveStep_offs_preserved scan st q p.name (Ne.symm hqp)
          (fun cb hc => hcb q (List.mem_cons_self q rest) cb hc hqp)]
        exact hst

/-- Claim C4 counterexample: in the `client` module, with a scanner on which
exactly the `dwPrediction` signature matches (save array `[0, 5]`), the
offset map contains the callback-derived key `dwLocalPlayerPawn`, which is
not a key of the signature-text map — so the offset map's key set is not
contained in the signature-text map's key set. -/
theorem claim_c4_counterexample :
    bmLookup "dwLocalPlayerPawn" (client_offsets scanPred).1 = some 389 ∧
    bmLookup "dwLocalPlayerPawn" (client_offsets scanPred).2 = none := by
  constructor <;> rfl

/-- Claim C4 (amended): for every module whose catalog has pairwise distinct
pattern names and whose callbacks never write under a different pattern's
name (true of all five catalogs), each pattern's signature text is a key of
the signature-text map regardless of the scan's outcome, and a pattern whose
scan failed is absent from the offset map; keys that callbacks derive may
appear in the offset map without appearing in the signature-text map. -/
theorem claim_c4_amended (scan : Scanner) (ps : List PatternDef) (p : PatternDef)
    (hmem : p ∈ ps) (hnd : (ps.map PatternDef.name).Nodup)
    (hcb : ∀ q ∈ ps, ∀ cb, q.callback = some cb → q.name ≠ p.name →
      ∀ s m v, bmLookup p.name (cb s m v) = bmLookup p.name m) :
    bmLookup p.name (resolvePatterns scan ps ([], [])).2 = some p.patternStr ∧
    (scan p.patternStr = none →
      bmLookup p.name (resolvePatterns scan ps ([], [])).1 = none) := by
  have h := resolvePatterns_key_facts scan ps ([], []) p hmem hnd hcb
  exact ⟨h.1, fun hs => h.2 hs rfl⟩

theorem claim_c4_witness :
    bmLookup "a" (resolvePatterns scanNone toyCatalog ([], [])).2 = some "pa" ∧
    bmLookup "a" (resolvePatterns scanNone toyCatalog ([], [])).1 = none := by
  have h := claim_c4_amended scanNone toyCatalog ⟨"a", "pa", none⟩
    (by simp [toyCatalog]) (by simp [toyCatalog])
    (by
      intro q hq cb hc
      simp only [toyCatalog, List.mem_singleton] at hq
      subst hq
      exact Option.noConfusion hc)
  exact ⟨h.1, h.2 rfl⟩

theorem runModules_fatal (p : ProcessModel) :
    ∀ (pre : List (String × (Scanner → OffsetBMap × SigBMap)))
      (name : String) (fn : Scanner → OffsetBMap × SigBMap)
      (post : List (String × (Scanner → OffsetBMap × SigBMap)))
      (acc : List (String × OffsetBMap) × List (String × SigBMap)) (e : String),
    (∀ m ∈ pre, ∃ v, acquireView p m.1 = Except.ok v) →
    acquireView p name = Except.error e →
    runModules p (pre ++ (name, fn) :: post) acc = Except.error e := by
  intro pre
  induction pre with
  | nil =>
    intro name fn post acc e _ hf
    simp only [List.nil_append, runModules, hf]
  | cons hd tl ih =>
    intro name fn post acc e hok hf
    obtain ⟨v, hv⟩ := hok hd (List.mem_cons_self hd tl)
    obtain ⟨hn, hfn⟩ := hd
    simp only [List.cons_append, runModules, hv]
    exact ih name fn post _ e (fun m hm => hok m (List.mem_cons_of_mem _ hm)) hf

/-- Claim C1: if, for any module of the fixed five-module list, resolving the
module by name, reading its image bytes, or parsing them into a view fails,
the top-level `offsets` function returns that error and yields no aggregate
mapping, even when all earlier modules of the list were acquired
successfully. -/
theorem claim_c1 (p : ProcessModel)
    (pre : List (String × (Scanner → OffsetBMap × SigBMap)))
    (name : String) (fn : Scanner → OffsetBMap × SigBMap)
    (post : List (String × (Scanner → OffsetBMap × SigBMap))) (e : String)
    (hsplit : fixedModules = pre ++ (name, fn) :: post)
    (hok : ∀ m ∈ pre, ∃ v, acquireView p m.1 = Except.ok v)
    (hf : acquireView p name = Except.error e) :
    offsets p = Except.error e := by
  show runModules p fixedModules ([], []) = Except.error e
  rw [hsplit]
  exact runModules_fatal p pre name fn post ([], []) e hok hf

theorem claim_c1_witness :
    acquireView pFatal "inputsystem.dll" = Except.error "ModuleNotFound" ∧
    offsets pFatal = Except.error "ModuleNotFound" := by
  refine ⟨rfl, ?_⟩
  exact claim_c1 pFatal
    [("client.dll", client_offsets), ("engine2.dll", engine2_offsets)]
    "inputsystem.dll" input_system_offsets
    [("matchmaking.dll", matchmaking_offsets), ("soundsystem.dll", soundsystem_offsets)]
    "ModuleNotFound" rfl
    (by
      intro m hm
      rcases List.mem_cons.mp hm with h | hm2
      · subst h; exact ⟨scanNone, rfl⟩
      · rcases List.mem_cons.mp hm2 with h | hm3
        · subst h; exact ⟨scanNone, rfl⟩
        · exact absurd hm3 (List.not_mem_nil m))
    rfl

/-- Claim C9: the aggregate offset map is keyed by module name first and only
then by pattern name, so two modules that each declare a pattern under the
same name `dwFoo` keep their two results distinct. -/
theorem claim_c9 (p : ProcessModel) (n1 n2 : String)
    (f1 f2 : Scanner → OffsetBMap × SigBMap) (s1 s2 : Scanner) (v1 v2 : Rva)
    (hne : n1 ≠ n2)
    (h1 : acquireView p n1 = Except.ok s1)
    (h2 : acquireView p n2 = Except.ok s2)
    (hv1 : bmLookup "dwFoo" (f1 s1).1 = some v1)
    (hv2 : bmLookup "dwFoo" (f2 s2).1 = some v2) :
    ∃ agg, runModules p [(n1, f1), (n2, f2)] ([], []) = Except.ok agg ∧
      (∃ m1, bmLookup n1 agg.1 = some m1 ∧ bmLookup "dwFoo" m1 = some v1) ∧
      (∃ m2, bmLookup n2 agg.1 = some m2 ∧ bmLookup "dwFoo" m2 = some v2) := by
  refine ⟨(bmInsert n2 (f2 s2).1 (bmInsert n1 (f1 s1).1 []),
    bmInsert n2 (f2 s2).2 (bmInsert n1 (f1 s1).2 [])), ?_, ?_, ?_⟩
  · simp only [runModules, h1, h2]
  · exact ⟨(f1 s1).1,
      by rw [bmLookup_bmInsert_ne _ _ hne, bmLookup_bmInsert_self], hv1⟩
  · exact ⟨(f2 s2).1, by rw [bmLookup_bmInsert_self], hv2⟩

theorem claim_c9_witness :
    ∃ agg, runModules pTwoMods [("modA", fooResolverA), ("modB", fooResolverB)]
        ([], []) = Except.ok agg ∧
      (∃ m1, bmLookup "modA" agg.1 = some m1 ∧ bmLookup "dwFoo" m1 = some 7) ∧
      (∃ m2, bmLookup "modB" agg.1 = some m2 ∧ bmLookup "dwFoo" m2 = some 9) :=
  claim_c9 pTwoMods "modA" "modB" fooResolverA fooResolverB scanSeven scanNine 7 9
    (by decide) rfl rfl rfl rfl

/-- Claim C8: compiling a signature text into a token sequence is a pure
function of the text, so two compilations of the same text yield identical
token sequences; sanity-checked on the `dwEntityList` signature. -/
theorem claim_c8 :
    (∀ s : String, compilePattern s = compilePattern s) ∧
    compilePattern dwEntityListDef.patternStr =
      some [PatAtom.lit 0x48, PatAtom.lit 0x89, PatAtom.lit 0x35, PatAtom.derefOpen,
        PatAtom.saveCursor, PatAtom.derefClose, PatAtom.lit 0x48, PatAtom.lit 0x85,
        PatAtom.lit 0xf6] :=
  ⟨fun _ => rfl, by decide⟩

theorem collapseUnderscores_head? (l : List Char) :
    (collapseUnderscores l).head? = l.head? := by
  induction l with
  | nil => rfl
  | cons c1 tl ih =>
    cases tl with
    | nil => rfl
    | cons c2 rest =>
      by_cases h : c1 = '_' ∧ c2 = '_'
      · obtain ⟨h1, h2⟩ := h
        subst h1
        subst h2
        rw [show collapseUnderscores ('_' :: '_' :: rest) = collapseUnderscores ('_' :: rest)
          from by simp [collapseUnderscores]]
        rw [ih]
        rfl
      · simp [collapseUnderscores, h]

theorem sanitizeStep3_head_not_digit (l : List Char) (c : Char)
    (h : (sanitizeStep3 l).head? = some c) : c.isDigit = false := by
  unfold sanitizeStep3 at h
  by_cases hd : (l.head?.map Char.isDigit).getD false
  · rw [if_pos hd] at h
    simp only [List.head?_cons, Option.some.injEq] at h
    subst h
    decide
  · rw [if_neg hd] at h
    cases hl : l.head? with
    | none => rw [hl] at h; cases h
    | some c2 =>
      rw [hl] at h
      cases h
      rw [hl] at hd
      exact Bool.not_eq_true _ ▸ hd

theorem dropLast_head? {α : Type} (l : List α) (h : 1 < l.length) :
    l.dropLast.head? = l.head? := by
  match l with
  | [] => simp at h
  | [a] => simp at h
  | a :: b :: t => simp [List.dropLast]

theorem sanitizeStep5_head? (b : Bool) (l : List Char) :
    (sanitizeStep5 b l).head? = l.head? := by
  unfold sanitizeStep5
  by_cases h : l.getLast? = some '_' ∧ 1 < l.length
  · rw [if_pos h]
    cases b with
    | false => exact dropLast_head? l h.2
    | true => rfl
  · rw [if_neg h]

theorem sanitizeFinish_ok (b : Bool) (l : List Char) :
    sanitizeFinish b l ≠ "" ∧
    ((sanitizeFinish b l).data.headD '_').isDigit = false := by
  unfold sanitizeFinish
  by_cases he : (sanitizeStep5 b (collapseUnderscores (sanitizeStep3 l))).isEmpty
  · rw [if_pos he]
    exact ⟨by decide, by decide⟩
  · rw [if_neg he]
    have h5 : (sanitizeStep5 b (collapseUnderscores (sanitizeStep3 l))).head? =
        (sanitizeStep3 l).head? := by
      rw [sanitizeStep5_head?, collapseUnderscores_head?]
    have hne : sanitizeStep5 b (collapseUnderscores (sanitizeStep3 l)) ≠ [] := by
      intro hcontr
      rw [hcontr] at he
      exact he rfl
    constructor
    · intro hcontr
      exact hne (congrArg String.data hcontr)
    · cases hh : (sanitizeStep3 l).head? with
      | none =>
        rw [hh] at h5
        exact absurd (List.head?_eq_none_iff.mp h5) hne
      | some c =>
        have hc := sanitizeStep3_head_not_digit l c hh
        have hsome : (sanitizeStep5 b (collapseUnderscores (sanitizeStep3 l))).head? =
          some c := h5.trans hh
        have hdata : (String.mk (sanitizeStep5 b (collapseUnderscores (sanitizeStep3 l)))).data =
          sanitizeStep5 b (collapseUnderscores (sanitizeStep3 l)) := rfl
        rw [hdata, List.headD_eq_head?_getD, hsome]
        exact hc

/-- Claim C10: for every input string and either value of the
`for_rust_constant` flag (and any behaviour of the external alphanumeric
classifier and case converter), `sanitize_identifier` returns a non-empty
string whose first character is not a decimal digit. -/
theorem claim_c10 (isAlnum : Char → Bool) (shouty : String → String)
    (name : String) (b : Bool) :
    sanitize_identifier isAlnum shouty name b ≠ "" ∧
    ((sanitize_identifier isAlnum shouty name b).data.headD '_').isDigit = false :=
  sanitizeFinish_ok _ _

theorem claim_c10_witness :
    sanitize_identifier asciiAlnum idShouty "123_TestPattern" false ≠ "" ∧
    ((sanitize_identifier asciiAlnum idShouty "123_TestPattern" false).data.headD
      '_').isDigit = false :=
  claim_c10 asciiAlnum idShouty "123_TestPattern" false
